import Mathlib

/-!
Verification of the umoci CLI mutation pipeline (`cmd/umoci/repack.go` and
`cmd/umoci/insert.go`) against its natural-language specification.

The two Go source files are shallowly embedded as pure Lean functions.  The
CAS engine, reference store and `mutate` package are not part of the given
sources; where the embedded commands call them, their behaviour is modelled
from the specification (each such definition carries a doc comment starting
with "Modelled from the spec").  External collaborators (go-mtree, the layer
generator, `time.Parse`) are treated as oracles supplied by an environment
record: every fallible external call is given its Go-style result (a value
together with an optional error) as an environment field, and the embedded
command consumes those results exactly where the source does.
-/

namespace Umoci

/-- OCI media type of an image manifest (`v1.MediaTypeImageManifest`). -/
def mtManifest : String := "application/vnd.oci.image.manifest.v1+json"

/-- OCI media type of an image config (`v1.MediaTypeImageConfig`). -/
def mtConfig : String := "application/vnd.oci.image.config.v1+json"

/-- OCI media type of an image layer (`v1.MediaTypeImageLayer`). -/
def mtLayer : String := "application/vnd.oci.image.layer.v1.tar"

/-- `v1.Descriptor`: a typed pointer to a blob. -/
structure Descriptor where
  mediaType : String
  digest : String
  size : Int
deriving DecidableEq

/-- `v1.Manifest`: the fields the mutation pipeline touches
(`Config` and `Layers`). -/
structure Manifest where
  config : Descriptor
  layers : List Descriptor
deriving DecidableEq

/-- `ispec.History`: one per-layer provenance entry.  Timestamps are
abstracted as natural numbers. -/
structure History where
  created : Option Nat
  createdBy : String
  author : String
  comment : String
  emptyLayer : Bool
deriving DecidableEq

/-- `v1.Image` (the image config): the fields the mutation pipeline touches
(`RootFS.DiffIDs` and `History`); all other fields are opaque to the core. -/
structure ImageConfig where
  diffIDs : List String
  history : List History
deriving DecidableEq

/-- A decoded blob held by the content-addressable store.  `FromDescriptor`
decodes a stored blob into a typed object; the type assertion in the Go code
(`blob.Data.(*v1.Manifest)` etc.) corresponds to matching on this sum. -/
inductive BlobData where
  | manifestData (m : Manifest)
  | configData (c : ImageConfig)
  | layerData (payload : String)
deriving DecidableEq

/-- Errors surfaced by the embedded commands.  `wrapped` models
`errors.Wrap`; `msg` models an error injected by an external collaborator. -/
inductive Err where
  | msg (s : String)
  | imagePathEmpty
  | bundlePathEmpty
  | refNameEmpty
  | refNotFound (name : String)
  | notImageManifest (mediaType : String)
  | blobNotFound (digest : String)
  | manifestBlobType
  | configBlobType
  | tagNotFound (name : String)
  | tagAmbiguous (name : String)
  | timeParse (s : String)
  | wrapped (ctx : String) (e : Err)
deriving DecidableEq

/-- Association-list lookup (keys are strings; the store is a finite map). -/
def alookup {α : Type} : List (String × α) → String → Option α
  | [], _ => none
  | (k, v) :: t, n => if k = n then some v else alookup t n

/-- Association-list removal of every binding of a key. -/
def aremove {α : Type} : List (String × α) → String → List (String × α)
  | [], _ => []
  | (k, v) :: t, n => if k = n then aremove t n else (k, v) :: aremove t n

/-- Association-list update: bind a key, replacing any previous binding. -/
def aset {α : Type} (l : List (String × α)) (n : String) (v : α) :
    List (String × α) :=
  (n, v) :: aremove l n

/-- The visible state of one image store: digest-keyed blobs and name-keyed
references (independent namespaces, per §3 of the spec). -/
structure Store where
  blobs : List (String × BlobData)
  refs : List (String × Descriptor)
deriving DecidableEq

/-- Modelled from the spec (§4.1 Blob Store): `Put` computes the digest and
atomically installs the blob under it; a write of an existing digest is
idempotent (overwrite-with-same-bytes, hash collisions being treated as
impossible).  References are untouched. -/
def addBlob (s : Store) (digest : String) (data : BlobData) : Store :=
  { s with blobs := (digest, data) :: s.blobs }

/-- Modelled from the spec (§4.2 Reference Store): `Delete(name)` removes
the named reference; absence is not an error for callers that intend
"ensure absent", so this operation is total on the store. -/
def deleteReference (s : Store) (name : String) : Store :=
  { s with refs := aremove s.refs name }

/-- Modelled from the spec (§4.2 Reference Store): `Put(name, descriptor)`
atomically creates-or-replaces the named reference; it never leaves a
half-written reference visible. -/
def setRef (s : Store) (name : String) (d : Descriptor) : Store :=
  { s with refs := aset s.refs name d }

/-- Trace of the store-affecting engine calls a command performed, in
program order.  `openEngine` records a successful `cas.Open`/`dir.Open`;
`mutAdd` records a successful `Mutator.Add` (an in-memory operation). -/
inductive Event where
  | openEngine
  | putBlob (digest : String)
  | putConfigBlob (c : ImageConfig) (digest : String) (size : Int)
  | putManifestBlob (m : Manifest) (digest : String) (size : Int)
  | deleteRef (name : String)
  | putRef (name : String) (d : Descriptor)
  | mutAdd (h : History)
  | updateRef (name : String) (d : Descriptor)
deriving DecidableEq

/-- Is this event a blob write? -/
def isBlobWrite : Event → Bool
  | .putBlob _ => true
  | .putConfigBlob _ _ _ => true
  | .putManifestBlob _ _ _ => true
  | _ => false

/-- Is this event a reference write (create, delete or repoint)? -/
def isRefWrite : Event → Bool
  | .deleteRef _ => true
  | .putRef _ _ => true
  | .updateRef _ _ => true
  | _ => false

/-- The blob writes of a trace, in order. -/
def blobWrites (tr : List Event) : List Event := tr.filter isBlobWrite

/-- The reference writes of a trace, in order. -/
def refWrites (tr : List Event) : List Event := tr.filter isRefWrite

/-- Result of one embedded command invocation: the returned error (`none`
is Go `nil`, i.e. success), the final store, and the event trace. -/
structure Outcome where
  result : Option Err
  store : Store
  trace : List Event
deriving DecidableEq

/-- Flags of `umoci repack` (`repack.go`): `--image`, `--bundle`, `--from`
and `--tag`. -/
structure RFlags where
  image : String
  bundle : String
  fromName : String
  tag : String
deriving DecidableEq

/-- Environment of one `repack` invocation: the Go-style outcome of every
fallible external call, in the order the source performs them.  A `some`
error models an I/O or decode failure of that call; the paired value fields
model the non-error components of the Go multiple return (for a failed call
the caller may still observe those values, as Go permits). -/
structure REnv where
  openErr : Option Err
  getRefErr : Option Err
  mtreeOpenErr : Option Err
  parseSpecErr : Option Err
  checkErr : Option Err
  genLayerErr : Option Err
  putBlobErr : Option Err
  putBlobVal : String × Int
  fromDescManifestErr : Option Err
  fromDescConfigErr : Option Err
  newGenErr : Option Err
  putConfigErr : Option Err
  putConfigVal : String × Int
  putManifestErr : Option Err
  putManifestVal : String × Int
  putRefErr : Option Err
deriving DecidableEq

/-- `generator.AddRootfsDiffID`: appends the new layer digest to
`config.rootfs.diff_ids` (repack.go line 189, "Append our new layer to the
set of DiffIDs"). -/
def addRootfsDiffID (c : ImageConfig) (digest : String) : ImageConfig :=
  { c with diffIDs := c.diffIDs ++ [digest] }

/-- `repack` (repack.go lines 72-219): everything up to and including the
creation of the new manifest descriptor.  Returns either an early-exit
outcome or the store, trace and new manifest descriptor reached at line 208.
Note that the error of the manifest `PutBlobJSON` (line 203) is assigned but
never checked by the source, so a failed manifest write does not produce an
early exit: the pipeline continues with the values that call returned. -/
def repackMain (f : RFlags) (e : REnv) (s0 : Store) :
    Outcome ⊕ (Store × List Event × Descriptor) :=
  if f.image = "" then .inl ⟨some .imagePathEmpty, s0, []⟩
  else if f.bundle = "" then .inl ⟨some .bundlePathEmpty, s0, []⟩
  else if f.fromName = "" then .inl ⟨some .refNameEmpty, s0, []⟩
  else match e.openErr with
  | some er => .inl ⟨some er, s0, []⟩
  | none =>
  match e.getRefErr with
  | some er => .inl ⟨some er, s0, [.openEngine]⟩
  | none =>
  match alookup s0.refs f.fromName with
  | none => .inl ⟨some (.refNotFound f.fromName), s0, [.openEngine]⟩
  | some fromDescriptor =>
  if fromDescriptor.mediaType ≠ mtManifest then
    .inl ⟨some (.notImageManifest fromDescriptor.mediaType), s0, [.openEngine]⟩
  else match e.mtreeOpenErr with
  | some er => .inl ⟨some er, s0, [.openEngine]⟩
  | none =>
  match e.parseSpecErr with
  | some er => .inl ⟨some er, s0, [.openEngine]⟩
  | none =>
  match e.checkErr with
  | some er => .inl ⟨some er, s0, [.openEngine]⟩
  | none =>
  match e.genLayerErr with
  | some er => .inl ⟨some er, s0, [.openEngine]⟩
  | none =>
  match e.putBlobErr with
  | some er => .inl ⟨some er, s0, [.openEngine]⟩
  | none =>
  match e.fromDescManifestErr with
  | some er => .inl ⟨some er, addBlob s0 e.putBlobVal.1 (.layerData e.putBlobVal.1),
                     [.openEngine, .putBlob e.putBlobVal.1]⟩
  | none =>
  match alookup (addBlob s0 e.putBlobVal.1 (.layerData e.putBlobVal.1)).blobs
        fromDescriptor.digest with
  | none => .inl ⟨some (.blobNotFound fromDescriptor.digest),
                  addBlob s0 e.putBlobVal.1 (.layerData e.putBlobVal.1),
                  [.openEngine, .putBlob e.putBlobVal.1]⟩
  | some (.configData _) => .inl ⟨some .manifestBlobType,
                  addBlob s0 e.putBlobVal.1 (.layerData e.putBlobVal.1),
                  [.openEngine, .putBlob e.putBlobVal.1]⟩
  | some (.layerData _) => .inl ⟨some .manifestBlobType,
                  addBlob s0 e.putBlobVal.1 (.layerData e.putBlobVal.1),
                  [.openEngine, .putBlob e.putBlobVal.1]⟩
  | some (.manifestData manifest) =>
  match e.fromDescConfigErr with
  | some er => .inl ⟨some er, addBlob s0 e.putBlobVal.1 (.layerData e.putBlobVal.1),
                     [.openEngine, .putBlob e.putBlobVal.1]⟩
  | none =>
  match alookup (addBlob s0 e.putBlobVal.1 (.layerData e.putBlobVal.1)).blobs
        manifest.config.digest with
  | none => .inl ⟨some (.blobNotFound manifest.config.digest),
                  addBlob s0 e.putBlobVal.1 (.layerData e.putBlobVal.1),
                  [.openEngine, .putBlob e.putBlobVal.1]⟩
  | some (.manifestData _) => .inl ⟨some .configBlobType,
                  addBlob s0 e.putBlobVal.1 (.layerData e.putBlobVal.1),
                  [.openEngine, .putBlob e.putBlobVal.1]⟩
  | some (.layerData _) => .inl ⟨some .configBlobType,
                  addBlob s0 e.putBlobVal.1 (.layerData e.putBlobVal.1),
                  [.openEngine, .putBlob e.putBlobVal.1]⟩
  | some (.configData config) =>
  match e.newGenErr with
  | some er => .inl ⟨some er, addBlob s0 e.putBlobVal.1 (.layerData e.putBlobVal.1),
                     [.openEngine, .putBlob e.putBlobVal.1]⟩
  | none =>
  match e.putConfigErr with
  | some er => .inl ⟨some er, addBlob s0 e.putBlobVal.1 (.layerData e.putBlobVal.1),
                     [.openEngine, .putBlob e.putBlobVal.1]⟩
  | none =>
  match e.putManifestErr with
  | some _ =>
    .inr (addBlob (addBlob s0 e.putBlobVal.1 (.layerData e.putBlobVal.1))
            e.putConfigVal.1 (.configData (addRootfsDiffID config e.putBlobVal.1)),
          [.openEngine, .putBlob e.putBlobVal.1,
           .putConfigBlob (addRootfsDiffID config e.putBlobVal.1)
             e.putConfigVal.1 e.putConfigVal.2],
          ⟨mtManifest, e.putManifestVal.1, e.putManifestVal.2⟩)
  | none =>
    .inr (addBlob
            (addBlob (addBlob s0 e.putBlobVal.1 (.layerData e.putBlobVal.1))
              e.putConfigVal.1 (.configData (addRootfsDiffID config e.putBlobVal.1)))
            e.putManifestVal.1
            (.manifestData
              { config := { manifest.config with digest := e.putConfigVal.1, size := e.putConfigVal.2 },
                layers := manifest.layers ++ [⟨mtLayer, e.putBlobVal.1, e.putBlobVal.2⟩] }),
          [.openEngine, .putBlob e.putBlobVal.1,
           .putConfigBlob (addRootfsDiffID config e.putBlobVal.1)
             e.putConfigVal.1 e.putConfigVal.2,
           .putManifestBlob
             { config := { manifest.config with digest := e.putConfigVal.1, size := e.putConfigVal.2 },
               layers := manifest.layers ++ [⟨mtLayer, e.putBlobVal.1, e.putBlobVal.2⟩] }
             e.putManifestVal.1 e.putManifestVal.2],
          ⟨mtManifest, e.putManifestVal.1, e.putManifestVal.2⟩)

/-- `repack` (repack.go lines 72-236): the full command.  After the new
manifest descriptor exists, an empty `--tag` returns success (line 223);
otherwise the old reference is clobbered by `DeleteReference` followed by
`PutReference` (lines 229-233). -/
def repack (f : RFlags) (e : REnv) (s0 : Store) : Outcome :=
  match repackMain f e s0 with
  | .inl o => o
  | .inr (s, tr, newDescriptor) =>
    if f.tag = "" then ⟨none, s, tr⟩
    else
      match e.putRefErr with
      | some er => ⟨some er, deleteReference s f.tag, tr ++ [.deleteRef f.tag]⟩
      | none => ⟨none, setRef (deleteReference s f.tag) f.tag newDescriptor,
                 tr ++ [.deleteRef f.tag, .putRef f.tag newDescriptor]⟩

/-- One element of the result of `ResolveReference`: a chain from a root
descriptor down to the manifest descriptor it designates. -/
structure DescriptorPath where
  root : Descriptor
  descriptor : Descriptor
deriving DecidableEq

/-- Flags and positional arguments of `umoci insert` (`insert.go`):
the image path and tag from `--image`, the `<file>`/`<path>` arguments and
the optional `--history.*` overrides. -/
structure IFlags where
  imagePath : String
  tag : String
  insFile : String
  insPath : String
  historyAuthor : Option String
  historyComment : Option String
  historyCreated : Option String
  historyCreatedBy : Option String
deriving DecidableEq

/-- Environment of one `insert` invocation, analogous to `REnv`.  `now`
is the `time.Now()` timestamp; `parseTime` is the `time.Parse` oracle;
`resolveRes` is the set of descriptor paths `ResolveReference` reports;
`insLayerDesc`/`insDiffID` describe the layer the generated stream packs
to when the mutator commits it. -/
structure IEnv where
  openErr : Option Err
  resolveErr : Option Err
  resolveRes : List DescriptorPath
  newMutatorErr : Option Err
  idmapErr : Option Err
  now : Nat
  parseTime : String → Option Nat
  insLayerDesc : Descriptor
  insDiffID : String
  addErr : Option Err
  commitLayerErr : Option Err
  commitConfigErr : Option Err
  commitConfigVal : String × Int
  commitManifestErr : Option Err
  commitManifestVal : String × Int
  updateRefErr : Option Err

/-- Modelled from the spec (§4.6 Image Mutator): the in-memory working copy
held between `Open` and `Commit`: the base manifest and config plus the
layer blobs pending until `Commit`. -/
structure MutatorState where
  manifest : Manifest
  config : ImageConfig
  pending : List Descriptor
deriving DecidableEq

/-- Modelled from the spec (§4.6): `Open` on a base image takes a working
copy of its manifest and config; nothing is pending. -/
def mutNew (m : Manifest) (c : ImageConfig) : MutatorState :=
  ⟨m, c, []⟩

/-- Modelled from the spec (§4.6, §4.7): `Add(layer, history)` is purely
additive to the working copy: it appends the layer descriptor to
`manifest.layers`, the layer diffID to `config.rootfs.diffIDs` and the
history entry to `config.history`; the layer blob becomes pending.  No blob
is written until `Commit`. -/
def mutAdd (ms : MutatorState) (layerDesc : Descriptor) (diffID : String)
    (h : History) : MutatorState :=
  { manifest := { ms.manifest with layers := ms.manifest.layers ++ [layerDesc] },
    config := { ms.config with
                  diffIDs := ms.config.diffIDs ++ [diffID],
                  history := ms.config.history ++ [h] },
    pending := ms.pending ++ [layerDesc] }

/-- Modelled from the spec (§4.6): the manifest `Commit` writes: the working
manifest, with its config descriptor repointed at the digest and size the
config blob write returned. -/
def mutCommitManifest (ms : MutatorState) (configDigest : String)
    (configSize : Int) : Manifest :=
  { ms.manifest with
      config := { ms.manifest.config with digest := configDigest, size := configSize } }

/-- The history entry `insert` builds (insert.go lines 119-142): defaults
`Created = time.Now()`, `CreatedBy = "umoci insert"`, empty comment and
author, `EmptyLayer = false`; then the `--history.author`,
`--history.comment`, `--history.created` (parsed; a parse failure aborts)
and `--history.created_by` overrides, in source order. -/
def buildHistory (f : IFlags) (now : Nat) (parse : String → Option Nat) :
    Err ⊕ History :=
  let h0 : History := ⟨some now, "umoci insert", "", "", false⟩
  let h1 := match f.historyAuthor with
    | some a => { h0 with author := a }
    | none => h0
  let h2 := match f.historyComment with
    | some c => { h1 with comment := c }
    | none => h1
  match f.historyCreated with
  | none =>
    .inr (match f.historyCreatedBy with
          | some cb => { h2 with createdBy := cb }
          | none => h2)
  | some str =>
    match parse str with
    | none => .inl (.wrapped "parsing --history.created" (.timeParse str))
    | some t =>
      let h3 := { h2 with created := some t }
      .inr (match f.historyCreatedBy with
            | some cb => { h3 with createdBy := cb }
            | none => h3)

/-- `insert` (insert.go lines 74-155): everything up to and including
`mutator.Commit`.  Returns either an early-exit outcome or the store, trace
and new root descriptor that `UpdateReference` will be given.  The mutator
calls are the spec-modelled `mutNew`/`mutAdd`/`mutCommitManifest`; `Commit`
writes, in order, the pending layer blob, the new config blob and the new
manifest blob (spec §4.6), each write failing atomically. -/
def insertMain (f : IFlags) (e : IEnv) (s0 : Store) :
    Outcome ⊕ (Store × List Event × Descriptor) :=
  match e.openErr with
  | some er => .inl ⟨some (.wrapped "open CAS" er), s0, []⟩
  | none =>
  match e.resolveErr with
  | some er => .inl ⟨some (.wrapped "get descriptor" er), s0, [.openEngine]⟩
  | none =>
  match e.resolveRes with
  | [] => .inl ⟨some (.tagNotFound f.tag), s0, [.openEngine]⟩
  | p :: rest =>
  if rest ≠ [] then .inl ⟨some (.tagAmbiguous f.tag), s0, [.openEngine]⟩
  else
  match e.newMutatorErr with
  | some er => .inl ⟨some (.wrapped "create mutator for base image" er), s0, [.openEngine]⟩
  | none =>
  match alookup s0.blobs p.descriptor.digest with
  | none => .inl ⟨some (.wrapped "create mutator for base image"
                    (.blobNotFound p.descriptor.digest)), s0, [.openEngine]⟩
  | some (.configData _) =>
    .inl ⟨some (.wrapped "create mutator for base image" .manifestBlobType), s0, [.openEngine]⟩
  | some (.layerData _) =>
    .inl ⟨some (.wrapped "create mutator for base image" .manifestBlobType), s0, [.openEngine]⟩
  | some (.manifestData baseManifest) =>
  match alookup s0.blobs baseManifest.config.digest with
  | none => .inl ⟨some (.wrapped "create mutator for base image"
                    (.blobNotFound baseManifest.config.digest)), s0, [.openEngine]⟩
  | some (.manifestData _) =>
    .inl ⟨some (.wrapped "create mutator for base image" .configBlobType), s0, [.openEngine]⟩
  | some (.layerData _) =>
    .inl ⟨some (.wrapped "create mutator for base image" .configBlobType), s0, [.openEngine]⟩
  | some (.configData baseConfig) =>
  match e.idmapErr with
  | some er => .inl ⟨some er, s0, [.openEngine]⟩
  | none =>
  match buildHistory f e.now e.parseTime with
  | .inl er => .inl ⟨some er, s0, [.openEngine]⟩
  | .inr history =>
  match e.addErr with
  | some er => .inl ⟨some (.wrapped "add diff layer" er), s0, [.openEngine]⟩
  | none =>
  match e.commitLayerErr with
  | some er => .inl ⟨some (.wrapped "commit mutated image" er), s0,
                     [.openEngine, .mutAdd history]⟩
  | none =>
  match e.commitConfigErr with
  | some er => .inl ⟨some (.wrapped "commit mutated image" er),
                     addBlob s0 e.insLayerDesc.digest (.layerData e.insLayerDesc.digest),
                     [.openEngine, .mutAdd history, .putBlob e.insLayerDesc.digest]⟩
  | none =>
  match e.commitManifestErr with
  | some er => .inl ⟨some (.wrapped "commit mutated image" er),
                     addBlob (addBlob s0 e.insLayerDesc.digest (.layerData e.insLayerDesc.digest))
                       e.commitConfigVal.1
                       (.configData (mutAdd (mutNew baseManifest baseConfig)
                          e.insLayerDesc e.insDiffID history).config),
                     [.openEngine, .mutAdd history, .putBlob e.insLayerDesc.digest,
                      .putConfigBlob (mutAdd (mutNew baseManifest baseConfig)
                          e.insLayerDesc e.insDiffID history).config
                        e.commitConfigVal.1 e.commitConfigVal.2]⟩
  | none =>
  .inr (addBlob
          (addBlob (addBlob s0 e.insLayerDesc.digest (.layerData e.insLayerDesc.digest))
            e.commitConfigVal.1
            (.configData (mutAdd (mutNew baseManifest baseConfig)
               e.insLayerDesc e.insDiffID history).config))
          e.commitManifestVal.1
          (.manifestData (mutCommitManifest
             (mutAdd (mutNew baseManifest baseConfig) e.insLayerDesc e.insDiffID history)
             e.commitConfigVal.1 e.commitConfigVal.2)),
        [.openEngine, .mutAdd history, .putBlob e.insLayerDesc.digest,
         .putConfigBlob (mutAdd (mutNew baseManifest baseConfig)
             e.insLayerDesc e.insDiffID history).config
           e.commitConfigVal.1 e.commitConfigVal.2,
         .putManifestBlob (mutCommitManifest
             (mutAdd (mutNew baseManifest baseConfig) e.insLayerDesc e.insDiffID history)
             e.commitConfigVal.1 e.commitConfigVal.2)
           e.commitManifestVal.1 e.commitManifestVal.2],
        ⟨mtManifest, e.commitManifestVal.1, e.commitManifestVal.2⟩)

/-- `insert` (insert.go lines 74-162): the full command.  After a
successful `Commit`, the tag is repointed with a single atomic
`UpdateReference` (line 157). -/
def insertRun (f : IFlags) (e : IEnv) (s0 : Store) : Outcome :=
  match insertMain f e s0 with
  | .inl o => o
  | .inr (s, tr, newDesc) =>
    match e.updateRefErr with
    | some er => ⟨some (.wrapped "add new tag" er), s, tr⟩
    | none => ⟨none, setRef s f.tag newDesc, tr ++ [.updateRef f.tag newDesc]⟩

/-- Number of history entries with `emptyLayer = false`. -/
def nonEmptyHistoryCount (c : ImageConfig) : Nat :=
  (c.history.filter (fun h => !h.emptyLayer)).length

/-- The §3/§8 correspondence invariant: `len(config.rootfs.diffIDs) ==
count(manifest.layers) == count(history entries with emptyLayer == false)`. -/
def configManifestConsistent (c : ImageConfig) (m : Manifest) : Prop :=
  c.diffIDs.length = m.layers.length ∧ m.layers.length = nonEmptyHistoryCount c

instance (c : ImageConfig) (m : Manifest) :
    Decidable (configManifestConsistent c m) := by
  unfold configManifestConsistent
  infer_instance

/-- All external calls of the `repack` pipeline up to and including both
`PutBlobJSON` writes succeed. -/
def REnv.cleanPipeline (e : REnv) : Prop :=
  e.openErr = none ∧ e.getRefErr = none ∧ e.mtreeOpenErr = none ∧
  e.parseSpecErr = none ∧ e.checkErr = none ∧ e.genLayerErr = none ∧
  e.putBlobErr = none ∧ e.fromDescManifestErr = none ∧
  e.fromDescConfigErr = none ∧ e.newGenErr = none ∧ e.putConfigErr = none ∧
  e.putManifestErr = none

instance (e : REnv) : Decidable e.cleanPipeline := by
  unfold REnv.cleanPipeline
  infer_instance

/-- The store holds a well-formed base image for `repack`: the mandatory
flags are non-empty, the `--from` reference exists, points at a manifest,
and the manifest and its config decode from the blob store. -/
def baseOK (s0 : Store) (f : RFlags) (fd : Descriptor) (M0 : Manifest)
    (C0 : ImageConfig) : Prop :=
  f.image ≠ "" ∧ f.bundle ≠ "" ∧ f.fromName ≠ "" ∧
  alookup s0.refs f.fromName = some fd ∧ fd.mediaType = mtManifest ∧
  alookup s0.blobs fd.digest = some (.manifestData M0) ∧
  alookup s0.blobs M0.config.digest = some (.configData C0)

instance (s0 : Store) (f : RFlags) (fd : Descriptor) (M0 : Manifest)
    (C0 : ImageConfig) : Decidable (baseOK s0 f fd M0 C0) := by
  unfold baseOK
  infer_instance

/-- All external calls of the `insert` pipeline up to and including the
`Commit` writes succeed. -/
def IEnv.cleanPipeline (e : IEnv) : Prop :=
  e.openErr = none ∧ e.resolveErr = none ∧ e.newMutatorErr = none ∧
  e.idmapErr = none ∧ e.addErr = none ∧ e.commitLayerErr = none ∧
  e.commitConfigErr = none ∧ e.commitManifestErr = none

instance (e : IEnv) : Decidable e.cleanPipeline := by
  unfold IEnv.cleanPipeline
  infer_instance

/-- The store holds a well-formed base image for `insert`: the tag resolves
to exactly one descriptor path, whose manifest and config decode from the
blob store. -/
def insBaseOK (s0 : Store) (e : IEnv) (p : DescriptorPath) (M0 : Manifest)
    (C0 : ImageConfig) : Prop :=
  e.resolveRes = [p] ∧
  alookup s0.blobs p.descriptor.digest = some (.manifestData M0) ∧
  alookup s0.blobs M0.config.digest = some (.configData C0)

instance (s0 : Store) (e : IEnv) (p : DescriptorPath) (M0 : Manifest)
    (C0 : ImageConfig) : Decidable (insBaseOK s0 e p M0 C0) := by
  unfold insBaseOK
  infer_instance

/-- Concrete base image used by witnesses and counterexamples: an image
with no layers, no diffIDs and no history. -/
def exM0 : Manifest := ⟨⟨mtConfig, "c0", 50⟩, []⟩

/-- Concrete base config (empty diffIDs and history). -/
def exC0 : ImageConfig := ⟨[], []⟩

/-- Descriptor of the concrete base manifest. -/
def exDescFrom : Descriptor := ⟨mtManifest, "m0", 100⟩

/-- Concrete store: the base manifest and config blobs, and the reference
"from" pointing at the manifest. -/
def exStore : Store :=
  ⟨[("m0", .manifestData exM0), ("c0", .configData exC0)], [("from", exDescFrom)]⟩

/-- The concrete store with an additional pre-existing tag "t". -/
def exStoreWithTag : Store :=
  ⟨exStore.blobs, ("t", exDescFrom) :: exStore.refs⟩

/-- Concrete repack flags tagging the result as "t". -/
def exRFlags : RFlags := ⟨"img", "bnd", "from", "t"⟩

/-- Concrete repack flags with an empty `--tag`. -/
def exRFlagsNoTag : RFlags := ⟨"img", "bnd", "from", ""⟩

/-- Concrete repack environment in which every external call succeeds. -/
def exREnvClean : REnv :=
  ⟨none, none, none, none, none, none, none, ("l1", 10), none, none, none,
   none, ("c1", 60), none, ("m1", 70), none⟩

/-- The clean repack environment except that the manifest `PutBlobJSON`
fails, returning an empty digest and zero size alongside its error. -/
def exREnvManifestFail : REnv :=
  { exREnvClean with putManifestErr := some (.msg "io error"), putManifestVal := ("", 0) }

/-- The clean repack environment except that `PutReference` fails. -/
def exREnvPutRefFail : REnv :=
  { exREnvClean with putRefErr := some (.msg "io error") }

/-- Concrete descriptor path resolving to the base manifest. -/
def exDescPath : DescriptorPath := ⟨exDescFrom, exDescFrom⟩

/-- Concrete insert flags with no `--history.*` overrides. -/
def exIFlags : IFlags := ⟨"img", "latest", "file", "/dst", none, none, none, none⟩

/-- Concrete insert flags with an unparsable `--history.created` value. -/
def exIFlagsBadCreated : IFlags :=
  { exIFlags with historyCreated := some "not-a-date" }

/-- Concrete insert environment in which every external call succeeds and
`time.Parse` rejects every string. -/
def exIEnvClean : IEnv :=
  ⟨none, none, [exDescPath], none, none, 7, fun _ => none, ⟨mtLayer, "l1", 10⟩,
   "diff1", none, none, none, ("c1", 60), none, ("m1", 70), none⟩

/-- The clean insert environment except that `dir.Open` fails. -/
def exIEnvOpenFail : IEnv := { exIEnvClean with openErr := some (.msg "io error") }

/-- The clean insert environment except that the tag does not resolve. -/
def exIEnvNoRef : IEnv := { exIEnvClean with resolveRes := [] }

/-- The clean insert environment except that the tag resolves to two
descriptor paths (a manifest list). -/
def exIEnvAmbiguous : IEnv :=
  { exIEnvClean with resolveRes := [exDescPath, exDescPath] }

/-- The descriptor `repack` builds for the newly packed layer blob
(repack.go lines 150-156). -/
def newLayerDesc (e : REnv) : Descriptor :=
  ⟨mtLayer, e.putBlobVal.1, e.putBlobVal.2⟩

/-- The manifest `repack` writes (repack.go lines 200-202): the base
manifest with the new layer descriptor appended and the config descriptor
repointed at the digest and size the config write returned. -/
def repackNewManifest (e : REnv) (M0 : Manifest) : Manifest :=
  { config := { M0.config with digest := e.putConfigVal.1, size := e.putConfigVal.2 },
    layers := M0.layers ++ [newLayerDesc e] }

/-- The frame property a command phase must satisfy with respect to the
reference namespace: whatever it returns, the references are untouched and
no reference write was traced. -/
def refsPreserved (s0 : Store) :
    Outcome ⊕ (Store × List Event × Descriptor) → Prop
  | .inl o => o.store.refs = s0.refs ∧ refWrites o.trace = []
  | .inr (s, tr, _) => s.refs = s0.refs ∧ refWrites tr = []

/-- The resolve-gate property of an `insert` phase result: either nothing
beyond opening the engine happened, or `ResolveReference` reported exactly
one descriptor path. -/
def resolveGateHolds (e : IEnv) :
    Outcome ⊕ (Store × List Event × Descriptor) → Prop
  | .inl o => (∀ ev ∈ o.trace, ev = Event.openEngine) ∨ e.resolveRes.length = 1
  | .inr _ => e.resolveRes.length = 1

theorem alookup_aremove {α : Type} (l : List (String × α)) (n m : String) :
    alookup (aremove l n) m = if m = n then none else alookup l m := by
  induction l with
  | nil => simp [aremove, alookup]
  | cons hd t ih =>
    obtain ⟨k, v⟩ := hd
    by_cases h1 : k = n <;> by_cases h2 : m = n <;> by_cases h3 : k = m <;>
      simp_all [aremove, alookup]

theorem aremove_absent {α : Type} (l : List (String × α)) (n : String)
    (h : alookup l n = none) : aremove l n = l := by
  induction l with
  | nil => rfl
  | cons hd t ih =>
    obtain ⟨k, v⟩ := hd
    by_cases h1 : k = n <;> simp_all [aremove, alookup]

theorem alookup_aset {α : Type} (l : List (String × α)) (n m : String) (v : α) :
    alookup (aset l n v) m = if m = n then some v else alookup l m := by
  by_cases h : m = n
  · subst h
    simp [aset, alookup]
  · have h2 : ¬n = m := fun hh => h hh.symm
    simp [aset, alookup, h2, h, alookup_aremove]

/-- `repackMain` never writes a reference: on every path, early exit or
not, the reference namespace of the resulting store is exactly that of the
initial store and the trace contains no reference write. -/
theorem repackMain_frame (f : RFlags) (e : REnv) (s0 : Store) :
    refsPreserved s0 (repackMain f e s0) := by
  unfold repackMain
  repeat' split
  all_goals exact ⟨rfl, rfl⟩

/-- `insertMain` never writes a reference: on every path, early exit or
not, the reference namespace of the resulting store is exactly that of the
initial store and the trace contains no reference write. -/
theorem insertMain_frame (f : IFlags) (e : IEnv) (s0 : Store) :
    refsPreserved s0 (insertMain f e s0) := by
  unfold insertMain
  repeat' split
  all_goals exact ⟨rfl, rfl⟩

/-- `insertMain` performs a non-`openEngine` event only after the
`ResolveReference` gate has reported exactly one descriptor path. -/
theorem insertMain_gate (f : IFlags) (e : IEnv) (s0 : Store) :
    resolveGateHolds e (insertMain f e s0) := by
  unfold insertMain
  repeat' split
  all_goals simp_all [resolveGateHolds]

/-- On a clean run of `repack` over a well-formed base image, the pipeline
phase reaches the new-manifest point having written, in order, the layer
blob, the new config blob (the base config with the layer digest appended
to its diffIDs) and the new manifest blob (the base manifest with the
layer descriptor appended and its config descriptor repointed). -/
theorem repackMain_clean (f : RFlags) (e : REnv) (s0 : Store) (fd : Descriptor)
    (M0 : Manifest) (C0 : ImageConfig)
    (hb : baseOK s0 f fd M0 C0) (hc : e.cleanPipeline)
    (hf1 : e.putBlobVal.1 ≠ fd.digest) (hf2 : e.putBlobVal.1 ≠ M0.config.digest) :
    repackMain f e s0 = .inr
      (addBlob (addBlob (addBlob s0 e.putBlobVal.1 (.layerData e.putBlobVal.1))
          e.putConfigVal.1 (.configData (addRootfsDiffID C0 e.putBlobVal.1)))
        e.putManifestVal.1 (.manifestData (repackNewManifest e M0)),
       [.openEngine, .putBlob e.putBlobVal.1,
        .putConfigBlob (addRootfsDiffID C0 e.putBlobVal.1) e.putConfigVal.1 e.putConfigVal.2,
        .putManifestBlob (repackNewManifest e M0) e.putManifestVal.1 e.putManifestVal.2],
       ⟨mtManifest, e.putManifestVal.1, e.putManifestVal.2⟩) := by
  obtain ⟨h1, h2, h3, h4, h5, h6, h7⟩ := hb
  obtain ⟨c1, c2, c3, c4, c5, c6, c7, c8, c9, c10, c11, c12⟩ := hc
  simp [repackMain, repackNewManifest, newLayerDesc, h1, h2, h3, h4, h5, h6,
        h7, c1, c2, c3, c4, c5, c6, c7, c8, c9, c10, c11, c12, addBlob,
        alookup, hf1, hf2]

/-- On a clean run of `insert` over a well-formed base image whose history
entry builds successfully, the pipeline phase reaches `UpdateReference`
having recorded `Add` with that entry and written, in order, the layer
blob, the new config blob and the new manifest blob produced by the
spec-modelled mutator. -/
theorem insertMain_clean (f : IFlags) (e : IEnv) (s0 : Store)
    (p : DescriptorPath) (M0 : Manifest) (C0 : ImageConfig) (h : History)
    (hb : insBaseOK s0 e p M0 C0) (hc : e.cleanPipeline)
    (hh : buildHistory f e.now e.parseTime = .inr h) :
    insertMain f e s0 = .inr
      (addBlob (addBlob (addBlob s0 e.insLayerDesc.digest (.layerData e.insLayerDesc.digest))
          e.commitConfigVal.1
          (.configData (mutAdd (mutNew M0 C0) e.insLayerDesc e.insDiffID h).config))
        e.commitManifestVal.1
        (.manifestData (mutCommitManifest (mutAdd (mutNew M0 C0) e.insLayerDesc e.insDiffID h)
           e.commitConfigVal.1 e.commitConfigVal.2)),
       [.openEngine, .mutAdd h, .putBlob e.insLayerDesc.digest,
        .putConfigBlob (mutAdd (mutNew M0 C0) e.insLayerDesc e.insDiffID h).config
          e.commitConfigVal.1 e.commitConfigVal.2,
        .putManifestBlob (mutCommitManifest (mutAdd (mutNew M0 C0) e.insLayerDesc e.insDiffID h)
            e.commitConfigVal.1 e.commitConfigVal.2)
          e.commitManifestVal.1 e.commitManifestVal.2],
       ⟨mtManifest, e.commitManifestVal.1, e.commitManifestVal.2⟩) := by
  obtain ⟨h1, h2, h3⟩ := hb
  obtain ⟨c1, c2, c3, c4, c5, c6, c7, c8⟩ := hc
  simp [insertMain, h1, h2, h3, c1, c2, c3, c4, c5, c6, c7, c8, hh]

/-- On a clean run over a well-formed base, the blob writes of the whole
`repack` command (whatever the `--tag` handling then does) are exactly:
layer blob, new config blob, new manifest blob, in that order. -/
theorem repack_clean_blobWrites (f : RFlags) (e : REnv) (s0 : Store)
    (fd : Descriptor) (M0 : Manifest) (C0 : ImageConfig)
    (hb : baseOK s0 f fd M0 C0) (hc : e.cleanPipeline)
    (hf1 : e.putBlobVal.1 ≠ fd.digest) (hf2 : e.putBlobVal.1 ≠ M0.config.digest) :
    blobWrites (repack f e s0).trace =
      [.putBlob e.putBlobVal.1,
       .putConfigBlob (addRootfsDiffID C0 e.putBlobVal.1) e.putConfigVal.1 e.putConfigVal.2,
       .putManifestBlob (repackNewManifest e M0) e.putManifestVal.1 e.putManifestVal.2] := by
  unfold repack
  rw [repackMain_clean f e s0 fd M0 C0 hb hc hf1 hf2]
  by_cases ht : f.tag = "" <;>
    cases hp : e.putRefErr <;>
      simp [ht, hp, blobWrites, isBlobWrite]

/-- Claim C4: starting from a base image with manifest `M0` and config
`C0`, one `Add` of a layer (descriptor `d`, diffID, history entry `h`)
followed by `Commit` yields a manifest whose layer list is `M0.layers`
with exactly `d` appended, and a config whose history is `C0.history` with
exactly `h` appended (and whose diffIDs gain exactly the new diffID); no
earlier element of either sequence is changed. -/
theorem c4_add_commit_appends (M0 : Manifest) (C0 : ImageConfig)
    (d : Descriptor) (diffID : String) (h : History) (cd : String) (cs : Int) :
    (mutCommitManifest (mutAdd (mutNew M0 C0) d diffID h) cd cs).layers =
      M0.layers ++ [d] ∧
    (mutAdd (mutNew M0 C0) d diffID h).config.history = C0.history ++ [h] ∧
    (mutAdd (mutNew M0 C0) d diffID h).config.diffIDs = C0.diffIDs ++ [diffID] := by
  simp [mutCommitManifest, mutAdd, mutNew]

/-- Claim C9: whenever `--image`, `--bundle` or `--from` is empty, `repack`
returns an error before the CAS engine is opened: the store is untouched
and the trace is empty (in particular, no `openEngine` event). -/
theorem c9_empty_flags (f : RFlags) (e : REnv) (s0 : Store)
    (h : f.image = "" ∨ f.bundle = "" ∨ f.fromName = "") :
    (repack f e s0).result.isSome = true ∧ (repack f e s0).store = s0 ∧
    (repack f e s0).trace = [] := by
  rcases h with h | h | h <;>
    by_cases h1 : f.image = "" <;> by_cases h2 : f.bundle = "" <;>
      simp [repack, repackMain, h, h1, h2]

/-- Witness for C9 at a concrete input with an empty `--image`. -/
theorem c9_witness :
    (repack ⟨"", "bnd", "from", "t"⟩ exREnvClean exStore).result.isSome = true ∧
    (repack ⟨"", "bnd", "from", "t"⟩ exREnvClean exStore).store = exStore ∧
    (repack ⟨"", "bnd", "from", "t"⟩ exREnvClean exStore).trace = [] :=
  c9_empty_flags ⟨"", "bnd", "from", "t"⟩ exREnvClean exStore (Or.inl rfl)

/-- Claim C6: if `ResolveReference` reports no descriptor path, `insert`
fails with the tag-not-found error; if it reports more than one, `insert`
fails with the tag-ambiguous error; in both cases the store is unchanged
and nothing beyond opening the engine happened; and any event beyond
opening the engine implies the gate reported exactly one path. -/
theorem c6_resolve_gate :
    (∀ (f : IFlags) (e : IEnv) (s0 : Store),
       e.openErr = none → e.resolveErr = none → e.resolveRes = [] →
       insertRun f e s0 = ⟨some (.tagNotFound f.tag), s0, [.openEngine]⟩) ∧
    (∀ (f : IFlags) (e : IEnv) (s0 : Store) (p q : DescriptorPath)
       (rest : List DescriptorPath),
       e.openErr = none → e.resolveErr = none → e.resolveRes = p :: q :: rest →
       insertRun f e s0 = ⟨some (.tagAmbiguous f.tag), s0, [.openEngine]⟩) ∧
    (∀ (f : IFlags) (e : IEnv) (s0 : Store) (ev : Event),
       ev ∈ (insertRun f e s0).trace → ev ≠ Event.openEngine →
       e.resolveRes.length = 1) := by
  refine ⟨?_, ?_, ?_⟩
  · intro f e s0 h1 h2 h3
    simp [insertRun, insertMain, h1, h2, h3]
  · intro f e s0 p q rest h1 h2 h3
    simp [insertRun, insertMain, h1, h2, h3]
  · intro f e s0 ev hmem hne
    have hg := insertMain_gate f e s0
    cases hm : insertMain f e s0 with
    | inl o =>
      rw [hm] at hg
      simp only [insertRun, hm] at hmem
      have hg2 : (∀ ev2 ∈ o.trace, ev2 = Event.openEngine) ∨ e.resolveRes.length = 1 := hg
      rcases hg2 with hall | hlen
      · exact absurd (hall ev hmem) hne
      · exact hlen
    | inr v =>
      rw [hm] at hg
      exact hg

/-- Witness for C6: the not-found case, the ambiguous case, and a clean
run whose non-trivial event certifies the single-path gate. -/
theorem c6_witness :
    insertRun exIFlags exIEnvNoRef exStore =
      ⟨some (.tagNotFound "latest"), exStore, [.openEngine]⟩ ∧
    insertRun exIFlags exIEnvAmbiguous exStore =
      ⟨some (.tagAmbiguous "latest"), exStore, [.openEngine]⟩ ∧
    exIEnvClean.resolveRes.length = 1 := by
  refine ⟨c6_resolve_gate.1 exIFlags exIEnvNoRef exStore rfl rfl rfl,
    c6_resolve_gate.2.1 exIFlags exIEnvAmbiguous exStore exDescPath exDescPath [] rfl rfl rfl,
    c6_resolve_gate.2.2 exIFlags exIEnvClean exStore
      (Event.putBlob "l1") ?_ (by decide)⟩
  decide

/-- Claim C7: deleting an absent reference succeeds and leaves the store
unchanged; consequently a clean `repack` with a fresh, non-empty `--tag`
passes `DeleteReference` and reaches `PutReference`, which installs the
new tag. -/
theorem c7_delete_absent :
    (∀ (s : Store) (n : String), alookup s.refs n = none →
       deleteReference s n = s) ∧
    (∀ (f : RFlags) (e : REnv) (s0 : Store) (fd : Descriptor) (M0 : Manifest)
       (C0 : ImageConfig),
       baseOK s0 f fd M0 C0 → e.cleanPipeline → e.putBlobVal.1 ≠ fd.digest →
       e.putBlobVal.1 ≠ M0.config.digest → f.tag ≠ "" →
       alookup s0.refs f.tag = none → e.putRefErr = none →
       (repack f e s0).result = none ∧
       Event.putRef f.tag ⟨mtManifest, e.putManifestVal.1, e.putManifestVal.2⟩ ∈
         (repack f e s0).trace ∧
       alookup (repack f e s0).store.refs f.tag =
         some ⟨mtManifest, e.putManifestVal.1, e.putManifestVal.2⟩) := by
  constructor
  · intro s n h
    unfold deleteReference
    rw [aremove_absent s.refs n h]
  · intro f e s0 fd M0 C0 hb hc hf1 hf2 ht hfresh hp
    unfold repack
    rw [repackMain_clean f e s0 fd M0 C0 hb hc hf1 hf2]
    simp [ht, hp, setRef, deleteReference, alookup_aset]

/-- Witness for C7: deleting the absent tag "t" from the concrete store is
the identity, and the concrete clean tagged repack run succeeds, reaches
`PutReference` and installs the tag. -/
theorem c7_witness :
    deleteReference exStore "t" = exStore ∧
    (repack exRFlags exREnvClean exStore).result = none ∧
    Event.putRef "t" ⟨mtManifest, "m1", 70⟩ ∈ (repack exRFlags exREnvClean exStore).trace ∧
    alookup (repack exRFlags exREnvClean exStore).store.refs "t" =
      some ⟨mtManifest, "m1", 70⟩ := by
  have h2 := c7_delete_absent.2 exRFlags exREnvClean exStore exDescFrom exM0 exC0
    (by decide) (by decide) (by decide) (by decide) (by decide) (by decide) rfl
  exact ⟨c7_delete_absent.1 exStore "t" (by decide), h2.1, h2.2.1, h2.2.2⟩

/-- Claim C8: with an empty `--tag`, `repack` never touches the reference
namespace on any path (no reference write is even attempted), and on a
clean run over a well-formed base it returns success having written the
layer, config and manifest blobs. -/
theorem c8_empty_tag_frame :
    (∀ (f : RFlags) (e : REnv) (s0 : Store), f.tag = "" →
       (repack f e s0).store.refs = s0.refs ∧
       refWrites (repack f e s0).trace = []) ∧
    (∀ (f : RFlags) (e : REnv) (s0 : Store) (fd : Descriptor) (M0 : Manifest)
       (C0 : ImageConfig),
       f.tag = "" → baseOK s0 f fd M0 C0 → e.cleanPipeline →
       e.putBlobVal.1 ≠ fd.digest → e.putBlobVal.1 ≠ M0.config.digest →
       (repack f e s0).result = none ∧
       blobWrites (repack f e s0).trace =
         [.putBlob e.putBlobVal.1,
          .putConfigBlob (addRootfsDiffID C0 e.putBlobVal.1) e.putConfigVal.1 e.putConfigVal.2,
          .putManifestBlob (repackNewManifest e M0) e.putManifestVal.1 e.putManifestVal.2]) := by
  constructor
  · intro f e s0 ht
    have hf := repackMain_frame f e s0
    unfold repack
    cases hm : repackMain f e s0 with
    | inl o =>
      rw [hm] at hf
      exact hf
    | inr v =>
      obtain ⟨s, tr, nd⟩ := v
      rw [hm] at hf
      simp only [ht, if_pos]
      exact hf
  · intro f e s0 fd M0 C0 ht hb hc hf1 hf2
    constructor
    · unfold repack
      rw [repackMain_clean f e s0 fd M0 C0 hb hc hf1 hf2]
      simp [ht]
    · exact repack_clean_blobWrites f e s0 fd M0 C0 hb hc hf1 hf2

/-- Witness for C8 at the concrete clean untagged repack run. -/
theorem c8_witness :
    (repack exRFlagsNoTag exREnvClean exStore).store.refs = exStore.refs ∧
    refWrites (repack exRFlagsNoTag exREnvClean exStore).trace = [] ∧
    (repack exRFlagsNoTag exREnvClean exStore).result = none ∧
    blobWrites (repack exRFlagsNoTag exREnvClean exStore).trace =
      [.putBlob "l1", .putConfigBlob (addRootfsDiffID exC0 "l1") "c1" 60,
       .putManifestBlob (repackNewManifest exREnvClean exM0) "m1" 70] := by
  have h1 := c8_empty_tag_frame.1 exRFlagsNoTag exREnvClean exStore rfl
  have h2 := c8_empty_tag_frame.2 exRFlagsNoTag exREnvClean exStore exDescFrom
    exM0 exC0 rfl (by decide) (by decide) (by decide) (by decide)
  exact ⟨h1.1, h1.2, h2.1, h2.2⟩

/-- Claim C5: on every clean mutation that adds a layer (both the `repack`
pipeline and the `insert` mutator commit), the blob writes are, in order:
the layer blob, then the new config blob, then the new manifest blob; and
the manifest written last embeds exactly the digest and size returned by
the config write. -/
theorem c5_write_order :
    (∀ (f : RFlags) (e : REnv) (s0 : Store) (fd : Descriptor) (M0 : Manifest)
       (C0 : ImageConfig),
       baseOK s0 f fd M0 C0 → e.cleanPipeline → e.putBlobVal.1 ≠ fd.digest →
       e.putBlobVal.1 ≠ M0.config.digest →
       blobWrites (repack f e s0).trace =
         [.putBlob e.putBlobVal.1,
          .putConfigBlob (addRootfsDiffID C0 e.putBlobVal.1) e.putConfigVal.1 e.putConfigVal.2,
          .putManifestBlob (repackNewManifest e M0) e.putManifestVal.1 e.putManifestVal.2] ∧
       (repackNewManifest e M0).config.digest = e.putConfigVal.1 ∧
       (repackNewManifest e M0).config.size = e.putConfigVal.2) ∧
    (∀ (f : IFlags) (e : IEnv) (s0 : Store) (p : DescriptorPath) (M0 : Manifest)
       (C0 : ImageConfig) (h : History),
       insBaseOK s0 e p M0 C0 → e.cleanPipeline →
       buildHistory f e.now e.parseTime = .inr h →
       blobWrites (insertRun f e s0).trace =
         [.putBlob e.insLayerDesc.digest,
          .putConfigBlob (mutAdd (mutNew M0 C0) e.insLayerDesc e.insDiffID h).config
            e.commitConfigVal.1 e.commitConfigVal.2,
          .putManifestBlob (mutCommitManifest (mutAdd (mutNew M0 C0) e.insLayerDesc e.insDiffID h)
              e.commitConfigVal.1 e.commitConfigVal.2)
            e.commitManifestVal.1 e.commitManifestVal.2] ∧
       (mutCommitManifest (mutAdd (mutNew M0 C0) e.insLayerDesc e.insDiffID h)
          e.commitConfigVal.1 e.commitConfigVal.2).config.digest = e.commitConfigVal.1 ∧
       (mutCommitManifest (mutAdd (mutNew M0 C0) e.insLayerDesc e.insDiffID h)
          e.commitConfigVal.1 e.commitConfigVal.2).config.size = e.commitConfigVal.2) := by
  constructor
  · intro f e s0 fd M0 C0 hb hc hf1 hf2
    refine ⟨repack_clean_blobWrites f e s0 fd M0 C0 hb hc hf1 hf2, ?_, ?_⟩ <;>
      simp [repackNewManifest]
  · intro f e s0 p M0 C0 h hb hc hh
    refine ⟨?_, by simp [mutCommitManifest], by simp [mutCommitManifest]⟩
    unfold insertRun
    rw [insertMain_clean f e s0 p M0 C0 h hb hc hh]
    cases hu : e.updateRefErr <;>
      simp [hu, blobWrites, isBlobWrite]

/-- Witness for C5 at the concrete clean repack and insert runs. -/
theorem c5_witness :
    blobWrites (repack exRFlags exREnvClean exStore).trace =
      [.putBlob "l1", .putConfigBlob (addRootfsDiffID exC0 "l1") "c1" 60,
       .putManifestBlob (repackNewManifest exREnvClean exM0) "m1" 70] ∧
    (repackNewManifest exREnvClean exM0).config.digest = "c1" ∧
    (repackNewManifest exREnvClean exM0).config.size = 60 ∧
    blobWrites (insertRun exIFlags exIEnvClean exStore).trace =
      [.putBlob "l1",
       .putConfigBlob (mutAdd (mutNew exM0 exC0) ⟨mtLayer, "l1", 10⟩ "diff1"
           ⟨some 7, "umoci insert", "", "", false⟩).config "c1" 60,
       .putManifestBlob (mutCommitManifest (mutAdd (mutNew exM0 exC0) ⟨mtLayer, "l1", 10⟩
             "diff1" ⟨some 7, "umoci insert", "", "", false⟩) "c1" 60) "m1" 70] ∧
    (mutCommitManifest (mutAdd (mutNew exM0 exC0) ⟨mtLayer, "l1", 10⟩ "diff1"
         ⟨some 7, "umoci insert", "", "", false⟩) "c1" 60).config.digest = "c1" := by
  have h1 := c5_write_order.1 exRFlags exREnvClean exStore exDescFrom exM0 exC0
    (by decide) (by decide) (by decide) (by decide)
  have h2 := c5_write_order.2 exIFlags exIEnvClean exStore exDescPath exM0 exC0
    ⟨some 7, "umoci insert", "", "", false⟩ (by decide) (by decide) rfl
  exact ⟨h1.1, h1.2.1, h1.2.2, h2.1, h2.2.1⟩

/-- Counterexample to claim C3: a successful repack mutation starting from
a base that satisfies the diffIDs/layers/history correspondence writes a
config with 1 diffID and a manifest with 1 layer but leaves the history
empty, so the written pair violates the correspondence. -/
theorem c3_counterexample :
    configManifestConsistent exC0 exM0 ∧
    (repack exRFlags exREnvClean exStore).result = none ∧
    alookup (repack exRFlags exREnvClean exStore).store.blobs "c1" =
      some (.configData ⟨["l1"], []⟩) ∧
    alookup (repack exRFlags exREnvClean exStore).store.blobs "m1" =
      some (.manifestData ⟨⟨mtConfig, "c1", 60⟩, [⟨mtLayer, "l1", 10⟩]⟩) ∧
    ¬ configManifestConsistent ⟨["l1"], []⟩ ⟨⟨mtConfig, "c1", 60⟩, [⟨mtLayer, "l1", 10⟩]⟩ := by
  decide

/-- Claim C3 as amended: a `Commit` through the mutator (`insert`) with a
non-empty-layer history entry preserves the diffIDs/layers/history
correspondence; `repack` extends diffIDs and layers in step (each grows by
exactly one) but leaves the history untouched, so the history count does
not follow. -/
theorem c3_amended :
    (∀ (M : Manifest) (C : ImageConfig) (d : Descriptor) (diffID : String)
       (h : History) (cd : String) (cs : Int),
       h.emptyLayer = false → configManifestConsistent C M →
       configManifestConsistent (mutAdd (mutNew M C) d diffID h).config
         (mutCommitManifest (mutAdd (mutNew M C) d diffID h) cd cs)) ∧
    (∀ (f : RFlags) (e : REnv) (s0 : Store) (fd : Descriptor) (M0 : Manifest)
       (C0 : ImageConfig),
       baseOK s0 f fd M0 C0 → e.cleanPipeline → e.putBlobVal.1 ≠ fd.digest →
       e.putBlobVal.1 ≠ M0.config.digest →
       blobWrites (repack f e s0).trace =
         [.putBlob e.putBlobVal.1,
          .putConfigBlob (addRootfsDiffID C0 e.putBlobVal.1) e.putConfigVal.1 e.putConfigVal.2,
          .putManifestBlob (repackNewManifest e M0) e.putManifestVal.1 e.putManifestVal.2] ∧
       (addRootfsDiffID C0 e.putBlobVal.1).diffIDs.length = C0.diffIDs.length + 1 ∧
       (repackNewManifest e M0).layers.length = M0.layers.length + 1 ∧
       (addRootfsDiffID C0 e.putBlobVal.1).history = C0.history) := by
  constructor
  · intro M C d diffID h cd cs he hcons
    obtain ⟨hc1, hc2⟩ := hcons
    constructor
    · simp [mutCommitManifest, mutAdd, mutNew, hc1]
    · simp [mutCommitManifest, mutAdd, mutNew, nonEmptyHistoryCount,
            List.filter_append, he] at hc2 ⊢
      omega
  · intro f e s0 fd M0 C0 hb hc hf1 hf2
    refine ⟨repack_clean_blobWrites f e s0 fd M0 C0 hb hc hf1 hf2, ?_, ?_, ?_⟩ <;>
      simp [addRootfsDiffID, repackNewManifest, newLayerDesc]

/-- Witness for the amended C3: the mutator step at a concrete consistent
base, and the concrete clean repack run. -/
theorem c3_witness :
    configManifestConsistent
      (mutAdd (mutNew exM0 exC0) ⟨mtLayer, "l1", 10⟩ "diff1"
        ⟨some 7, "umoci insert", "", "", false⟩).config
      (mutCommitManifest (mutAdd (mutNew exM0 exC0) ⟨mtLayer, "l1", 10⟩ "diff1"
        ⟨some 7, "umoci insert", "", "", false⟩) "c1" 60) ∧
    blobWrites (repack exRFlags exREnvClean exStore).trace =
      [.putBlob "l1", .putConfigBlob (addRootfsDiffID exC0 "l1") "c1" 60,
       .putManifestBlob (repackNewManifest exREnvClean exM0) "m1" 70] ∧
    (addRootfsDiffID exC0 "l1").diffIDs.length = exC0.diffIDs.length + 1 ∧
    (repackNewManifest exREnvClean exM0).layers.length = exM0.layers.length + 1 ∧
    (addRootfsDiffID exC0 "l1").history = exC0.history := by
  have h1 := c3_amended.1 exM0 exC0 ⟨mtLayer, "l1", 10⟩ "diff1"
    ⟨some 7, "umoci insert", "", "", false⟩ "c1" 60 rfl (by decide)
  have h2 := c3_amended.2 exRFlags exREnvClean exStore exDescFrom exM0 exC0
    (by decide) (by decide) (by decide) (by decide)
  exact ⟨h1, h2.1, h2.2.1, h2.2.2.1, h2.2.2.2⟩

/-- Claim C2 (code bug): repack.go line 203 assigns the error of the
manifest `PutBlobJSON` but never checks it.  On a run where every call
succeeds except that final manifest write, `repack` returns success (`nil`)
anyway and even repoints the `--tag` reference at a descriptor whose digest
is whatever the failed call returned — here the empty string, under which
no blob exists. -/
theorem c2_swallowed_manifest_error :
    exREnvManifestFail.putManifestErr = some (.msg "io error") ∧
    (repack exRFlags exREnvManifestFail exStore).result = none ∧
    alookup (repack exRFlags exREnvManifestFail exStore).store.refs "t" =
      some ⟨mtManifest, "", 0⟩ ∧
    alookup (repack exRFlags exREnvManifestFail exStore).store.blobs "" = none := by
  decide

/-- Counterexample to claim C1: `repack` updates the tag by
`DeleteReference` followed by `PutReference` (repack.go lines 229-233).
On a run where everything succeeds except `PutReference`, a pre-existing
`--tag` reference — not a brand-new one — is left absent, resolving to
nothing, instead of still pointing at its pre-mutation descriptor. -/
theorem c1_counterexample :
    alookup exStoreWithTag.refs "t" = some exDescFrom ∧
    (repack exRFlags exREnvPutRefFail exStoreWithTag).result.isSome = true ∧
    alookup (repack exRFlags exREnvPutRefFail exStoreWithTag).store.refs "t" = none := by
  decide

/-- Claim C1 as amended: a failed `insert` leaves the reference namespace
untouched.  A failed `repack` leaves every reference other than the
`--tag` name untouched; the `--tag` reference itself is either unchanged
or — when `DeleteReference` already ran and `PutReference` then failed —
absent, so a pre-existing tag can be left resolving to nothing. -/
theorem c1_amended :
    (∀ (f : IFlags) (e : IEnv) (s0 : Store),
       (insertRun f e s0).result.isSome = true →
       (insertRun f e s0).store.refs = s0.refs) ∧
    (∀ (f : RFlags) (e : REnv) (s0 : Store) (n : String),
       (repack f e s0).result.isSome = true → n ≠ f.tag →
       alookup (repack f e s0).store.refs n = alookup s0.refs n) ∧
    (∀ (f : RFlags) (e : REnv) (s0 : Store),
       (repack f e s0).result.isSome = true →
       alookup (repack f e s0).store.refs f.tag = alookup s0.refs f.tag ∨
       alookup (repack f e s0).store.refs f.tag = none) := by
  refine ⟨?_, ?_, ?_⟩
  · intro f e s0 hr
    have hf := insertMain_frame f e s0
    unfold insertRun at hr ⊢
    cases hm : insertMain f e s0 with
    | inl o =>
      rw [hm] at hf
      exact hf.1
    | inr v =>
      obtain ⟨s, tr, nd⟩ := v
      rw [hm] at hf hr
      cases hu : e.updateRefErr with
      | some er => exact hf.1
      | none =>
        rw [hu] at hr
        simp at hr
  · intro f e s0 n hr hn
    have hf := repackMain_frame f e s0
    unfold repack at hr ⊢
    cases hm : repackMain f e s0 with
    | inl o =>
      rw [hm] at hf
      show alookup o.store.refs n = alookup s0.refs n
      rw [hf.1]
    | inr v =>
      obtain ⟨s, tr, nd⟩ := v
      rw [hm] at hf hr
      dsimp only at hr ⊢
      have h1 : s.refs = s0.refs := hf.1
      by_cases ht : f.tag = ""
      · rw [ht] at hr
        simp at hr
      · rw [if_neg ht]
        cases hu : e.putRefErr with
        | some er =>
          show alookup (aremove s.refs f.tag) n = alookup s0.refs n
          rw [alookup_aremove]
          simp [hn, h1]
        | none =>
          rw [if_neg ht, hu] at hr
          simp at hr
  · intro f e s0 hr
    have hf := repackMain_frame f e s0
    unfold repack at hr ⊢
    cases hm : repackMain f e s0 with
    | inl o =>
      rw [hm] at hf
      refine Or.inl ?_
      show alookup o.store.refs f.tag = alookup s0.refs f.tag
      rw [hf.1]
    | inr v =>
      obtain ⟨s, tr, nd⟩ := v
      rw [hm] at hf hr
      dsimp only at hr ⊢
      by_cases ht : f.tag = ""
      · rw [ht] at hr
        simp at hr
      · rw [if_neg ht]
        cases hu : e.putRefErr with
        | some er =>
          refine Or.inr ?_
          show alookup (aremove s.refs f.tag) f.tag = none
          rw [alookup_aremove]
          simp
        | none =>
          rw [if_neg ht, hu] at hr
          simp at hr

/-- Witness for the amended C1: a failed insert (open fails) keeps the
references; a repack whose `PutReference` fails keeps every other name and
leaves the tag either unchanged or absent. -/
theorem c1_witness :
    (insertRun exIFlags exIEnvOpenFail exStore).store.refs = exStore.refs ∧
    alookup (repack exRFlags exREnvPutRefFail exStore).store.refs "from" =
      alookup exStore.refs "from" ∧
    (alookup (repack exRFlags exREnvPutRefFail exStore).store.refs "t" =
       alookup exStore.refs "t" ∨
     alookup (repack exRFlags exREnvPutRefFail exStore).store.refs "t" = none) := by
  refine ⟨c1_amended.1 exIFlags exIEnvOpenFail exStore ?_,
    c1_amended.2.1 exRFlags exREnvPutRefFail exStore "from" (by decide) (by decide),
    c1_amended.2.2 exRFlags exREnvPutRefFail exStore (by decide)⟩
  decide

/-- Claim C10: the history entry `insert` passes to `Mutator.Add` always
has `EmptyLayer = false`; its `CreatedBy` is "umoci insert" unless
overridden by `--history.created_by`; its `Created` is the invocation time
unless overridden by a successfully parsed `--history.created`; and an
unparsable `--history.created` makes `insert` return an error before `Add`
is called, with the store unchanged and nothing written. -/
theorem c10_history_entry :
    (∀ (f : IFlags) (now : Nat) (parse : String → Option Nat) (h : History),
       buildHistory f now parse = .inr h →
       h.emptyLayer = false ∧ h.createdBy = f.historyCreatedBy.getD "umoci insert") ∧
    (∀ (f : IFlags) (now : Nat) (parse : String → Option Nat) (h : History),
       buildHistory f now parse = .inr h → f.historyCreated = none →
       h.created = some now) ∧
    (∀ (f : IFlags) (now : Nat) (parse : String → Option Nat) (h : History)
       (str : String) (t : Nat),
       f.historyCreated = some str → parse str = some t →
       buildHistory f now parse = .inr h → h.created = some t) ∧
    (∀ (f : IFlags) (e : IEnv) (s0 : Store) (p : DescriptorPath) (M0 : Manifest)
       (C0 : ImageConfig) (str : String),
       insBaseOK s0 e p M0 C0 → e.openErr = none → e.resolveErr = none →
       e.newMutatorErr = none → e.idmapErr = none →
       f.historyCreated = some str → e.parseTime str = none →
       insertRun f e s0 =
         ⟨some (.wrapped "parsing --history.created" (.timeParse str)), s0,
          [.openEngine]⟩) ∧
    (∀ (f : IFlags) (e : IEnv) (s0 : Store) (p : DescriptorPath) (M0 : Manifest)
       (C0 : ImageConfig) (h : History),
       insBaseOK s0 e p M0 C0 → e.cleanPipeline →
       buildHistory f e.now e.parseTime = .inr h →
       Event.mutAdd h ∈ (insertRun f e s0).trace) := by
  refine ⟨?_, ?_, ?_, ?_, ?_⟩
  · intro f now parse h hb
    unfold buildHistory at hb
    repeat' split at hb
    all_goals first
      | (injection hb with hb2; subst hb2; simp_all)
      | injection hb
  · intro f now parse h hb hn
    unfold buildHistory at hb
    repeat' split at hb
    all_goals first
      | (injection hb with hb2; subst hb2; simp_all)
      | injection hb
  · intro f now parse h str t hcr hp hb
    unfold buildHistory at hb
    repeat' split at hb
    all_goals first
      | (injection hb with hb2; subst hb2; simp_all)
      | injection hb
  · intro f e s0 p M0 C0 str hb h1 h2 h3 h4 hcr hp
    obtain ⟨hb1, hb2, hb3⟩ := hb
    simp [insertRun, insertMain, h1, h2, h3, h4, hb1, hb2, hb3, buildHistory,
          hcr, hp]
  · intro f e s0 p M0 C0 h hb hc hh
    unfold insertRun
    rw [insertMain_clean f e s0 p M0 C0 h hb hc hh]
    cases hu : e.updateRefErr <;> simp [hu]

/-- Witness for C10: the default history entry of the concrete clean
insert run, and the concrete run with an unparsable timestamp aborting
before `Add`. -/
theorem c10_witness :
    (⟨some 7, "umoci insert", "", "", false⟩ : History).emptyLayer = false ∧
    (⟨some 7, "umoci insert", "", "", false⟩ : History).createdBy =
      (none : Option String).getD "umoci insert" ∧
    (⟨some 7, "umoci insert", "", "", false⟩ : History).created = some 7 ∧
    insertRun exIFlagsBadCreated exIEnvClean exStore =
      ⟨some (.wrapped "parsing --history.created" (.timeParse "not-a-date")),
       exStore, [.openEngine]⟩ ∧
    Event.mutAdd ⟨some 7, "umoci insert", "", "", false⟩ ∈
      (insertRun exIFlags exIEnvClean exStore).trace := by
  have h1 := c10_history_entry.1 exIFlags 7 (fun _ => none)
    ⟨some 7, "umoci insert", "", "", false⟩ rfl
  have h2 := c10_history_entry.2.1 exIFlags 7 (fun _ => none)
    ⟨some 7, "umoci insert", "", "", false⟩ rfl rfl
  have h4 := c10_history_entry.2.2.2.1 exIFlagsBadCreated exIEnvClean exStore
    exDescPath exM0 exC0 "not-a-date" (by decide) rfl rfl rfl rfl rfl rfl
  have h5 := c10_history_entry.2.2.2.2 exIFlags exIEnvClean exStore
    exDescPath exM0 exC0 ⟨some 7, "umoci insert", "", "", false⟩ (by decide)
    (by decide) rfl
  exact ⟨h1.1, h1.2, h2, h4, h5⟩

end Umoci
